import Mathlib

/-!
Verification of the golang-functional-options repository.

The repository demonstrates five ways to configure a small HTTP-client
value in Go.  Every example package declares the same struct:

  type Client struct {
      baseURL    string
      header     map[string]string
      logger     ILogger
      baseClient *http.Client
  }

Shallow embedding choices:
* `header` has Go type `map[string]string`, whose values include the nil
  map; it is embedded as `Option (List (String × String))` where `none`
  is the nil map and `some []` is the empty map literal `map`\x7b\x7d`.
  Every operation in the repository assigns whole maps (never inserts a
  key), so an association list is a faithful carrier of map values.
* `logger` has Go type `ILogger = interface` (any dynamic value or nil);
  it is embedded as `Option L` for an arbitrary payload type `L`, where
  `none` is the nil interface value.
* `baseClient` has Go type `*http.Client`; the repository only ever
  stores the fresh allocation `&http.Client\x7b\x7d` or the zero value nil,
  so it is embedded as `Option Unit` (`some ()` = freshly allocated
  default client, `none` = nil pointer).
* Go functions that mutate a `*Client` in place, while the client has a
  single owner, are embedded as pure functions `Client L → Client L`.
-/

/-- The `Client` struct, declared identically in all example packages
(`traditional_constructor`, `multiple_constructors`, `config_struct`,
the setter example, and `functional_options_pattern`). -/
structure Client (L : Type) where
  baseURL : String
  header : Option (List (String × String))
  logger : Option L
  baseClient : Option Unit
deriving DecidableEq, Repr

namespace FunctionalOptions

/-- `type Option func(*Client)` from
`src/example/functional_options_pattern/main.go` line 17: a unit of
deferred mutation of the client (named with a prime to avoid shadowing the core library type of the same name). -/
def Option' (L : Type) : Type := Client L → Client L

/-- `New` from `src/example/functional_options_pattern/main.go` lines
19-30: allocates the client with `baseURL` set, `header` the empty map
literal, `logger` at its zero value nil and `baseClient` a fresh
`&http.Client\x7b\x7d`, then applies each option in sequence order. -/
def New {L : Type} (baseURL : String) (opts : List (Option' L)) : Client L :=
  opts.foldl (fun c opt => opt c)
    { baseURL := baseURL, header := some [], logger := none, baseClient := some () }

/-- `WithHeader` from `src/example/functional_options_pattern/main.go`
lines 32-36: returns an option that assigns the captured map to
`c.header`, replacing the whole map. -/
def WithHeader {L : Type} (header : Option (List (String × String))) : Option' L :=
  fun c => { c with header := header }

/-- `WithLogger` from `src/example/functional_options_pattern/main.go`
lines 38-42: returns an option that assigns the captured logger to
`c.logger`. -/
def WithLogger {L : Type} (logger : Option L) : Option' L :=
  fun c => { c with logger := logger }

/-- An option whose effect is a pure assignment: it overwrites exactly
one named attribute of the target with a captured constant (or does
nothing), leaving every other attribute unchanged. -/
def IsPureAssignment {L : Type} (o : Option' L) : Prop :=
  (∃ h, ∀ c : Client L, o c = { c with header := h }) ∨
  (∃ l, ∀ c : Client L, o c = { c with logger := l }) ∨
  (∃ b, ∀ c : Client L, o c = { c with baseURL := b }) ∨
  (∃ bc, ∀ c : Client L, o c = { c with baseClient := bc }) ∨
  (∀ c : Client L, o c = c)

end FunctionalOptions

namespace Traditional

/-- `New` from `src/example/traditional_constructor/main.go` lines
17-24: fixed constructor taking every field explicitly. -/
def New {L : Type} (baseURL : String) (header : Option (List (String × String)))
    (logger : Option L) : Client L :=
  { baseURL := baseURL, header := header, logger := logger, baseClient := some () }

end Traditional

namespace ConfigStruct

/-- The `Config` struct from `src/example/config_struct/main.go` lines
10-14. -/
structure Config (L : Type) where
  BaseURL : String
  Header : Option (List (String × String))
  Logger : Option L
deriving DecidableEq, Repr

/-- `NewWithConfig` from `src/example/config_struct/main.go` lines
23-30: builds the client from the config struct's fields. -/
def NewWithConfig {L : Type} (config : Config L) : Client L :=
  { baseURL := config.BaseURL, header := config.Header, logger := config.Logger,
    baseClient := some () }

end ConfigStruct

namespace SpecBuilder

/-- Modelled from the spec: the error taxonomy of the design section.
The source's `Option` type (`func(*Client)`, no return value) cannot
signal failure, so the taxonomy `InvalidArgument`,
`OptionApplicationFailure` and `ConfigurationIncomplete` exists only in
the spec. -/
inductive BuildError where
  | invalidArgument : BuildError
  | optionApplicationFailure (name : String) (reason : String) : BuildError
  | configurationIncomplete : BuildError
deriving DecidableEq, Repr

/-- Modelled from the spec: a fallible option with the
`apply(target) -> Result<void, Error>` capability of the design notes.
The source's options (`func(*Client)`) return nothing and cannot fail;
this definition adds the success/failure outcome the spec requires so
that `Build` can abort. -/
def FallibleOption (L : Type) : Type := Client L → Except BuildError (Client L)

/-- Modelled from the spec: the default-initialized target of `Build`
step 1, with the required identifier set and every optional attribute at
its documented default (empty header map, diagnostic sink unset, fresh
base client), as in the source's `New`. -/
def initialTarget {L : Type} (required : String) : Client L :=
  { baseURL := required, header := some [], logger := none, baseClient := some () }

/-- Modelled from the spec: apply each option in sequence order,
surfacing the first `OptionApplicationFailure` immediately and applying
no subsequent option.  The loop shape follows the source's `New`
(lines 26-29), with the fail-fast exit the spec adds. -/
def applyOptions {L : Type} (c : Client L) (opts : List (FallibleOption L)) :
    Except BuildError (Client L) :=
  match opts with
  | [] => .ok c
  | o :: rest =>
    match o c with
    | .error e => .error e
    | .ok c' => applyOptions c' rest

/-- Modelled from the spec: the one-shot contract
`Build(required, options)`: allocate the default target, apply every
option in order fail-fast, and return the finished target or the first
error.  The source's `New` is this contract with infallible options and
no error channel. -/
def Build {L : Type} (required : String) (options : List (FallibleOption L)) :
    Except BuildError (Client L) :=
  applyOptions (initialTarget required) options

theorem applyOptions_ok_append {L : Type} (xs : List (FallibleOption L)) :
    ∀ (ys : List (FallibleOption L)) (c c' : Client L),
    applyOptions c xs = .ok c' → applyOptions c (xs ++ ys) = applyOptions c' ys := by
  induction xs with
  | nil =>
    intro ys c c' h
    simp only [applyOptions] at h
    cases h
    rfl
  | cons o rest ih =>
    intro ys c c' h
    simp only [applyOptions] at h ⊢
    cases hoc : o c with
    | error e => rw [hoc] at h; exact absurd h (by simp)
    | ok c₁ => rw [hoc] at h; exact ih ys c₁ c' h

end SpecBuilder

/-- C1: for every non-empty identifier `b`, `New b []` returns a target
whose identifier equals `b`, whose header mapping is the empty map and
whose logger is unset (and whose base client is the fresh default). -/
theorem C1_build_empty_defaults {L : Type} (b : String) (hb : b ≠ "") :
    (FunctionalOptions.New (L := L) b []).baseURL = b ∧
    (FunctionalOptions.New (L := L) b []).header = some [] ∧
    (FunctionalOptions.New (L := L) b []).logger = none ∧
    (FunctionalOptions.New (L := L) b []).baseClient = some () :=
  ⟨rfl, rfl, rfl, rfl⟩

/-- Witness for C1 at the spec's concrete scenario. -/
theorem C1_build_empty_defaults_witness :
    (FunctionalOptions.New (L := Nat) "https://api.example.com" []).baseURL =
      "https://api.example.com" ∧
    (FunctionalOptions.New (L := Nat) "https://api.example.com" []).header = some [] ∧
    (FunctionalOptions.New (L := Nat) "https://api.example.com" []).logger = none ∧
    (FunctionalOptions.New (L := Nat) "https://api.example.com" []).baseClient = some () :=
  C1_build_empty_defaults "https://api.example.com" (by decide)

/-- C2: two `WithHeader` options on the same attribute are last-write-
wins: the built target's header mapping equals the second map in full,
whatever the first map was, and the other attributes are as with the
second option alone. -/
theorem C2_last_write_wins {L : Type} (b : String) (hb : b ≠ "")
    (h1 h2 : Option (List (String × String))) :
    (FunctionalOptions.New (L := L) b
      [FunctionalOptions.WithHeader h1, FunctionalOptions.WithHeader h2]).header = h2 ∧
    FunctionalOptions.New (L := L) b
      [FunctionalOptions.WithHeader h1, FunctionalOptions.WithHeader h2] =
      FunctionalOptions.New (L := L) b [FunctionalOptions.WithHeader h2] :=
  ⟨rfl, rfl⟩

/-- Witness for C2 at the spec's concrete scenario. -/
theorem C2_last_write_wins_witness :
    (FunctionalOptions.New (L := Nat) "https://api.example.com"
      [FunctionalOptions.WithHeader (some [("A", "1")]),
       FunctionalOptions.WithHeader (some [("B", "2")])]).header = some [("B", "2")] ∧
    FunctionalOptions.New (L := Nat) "https://api.example.com"
      [FunctionalOptions.WithHeader (some [("A", "1")]),
       FunctionalOptions.WithHeader (some [("B", "2")])] =
      FunctionalOptions.New (L := Nat) "https://api.example.com"
        [FunctionalOptions.WithHeader (some [("B", "2")])] :=
  C2_last_write_wins "https://api.example.com" (by decide) (some [("A", "1")])
    (some [("B", "2")])

/-- C3: in the spec's fallible builder, if the options before `o` all
succeed and `o` fails with error `e`, then `Build` returns `e` itself
and no target, whatever options follow `o` (they are never applied: the
result does not depend on `post`). -/
theorem C3_fail_fast {L : Type} (required : String)
    (pre post : List (SpecBuilder.FallibleOption L)) (o : SpecBuilder.FallibleOption L)
    (c' : Client L) (e : SpecBuilder.BuildError)
    (hpre : SpecBuilder.applyOptions (SpecBuilder.initialTarget required) pre = .ok c')
    (hfail : o c' = .error e) :
    SpecBuilder.Build required (pre ++ o :: post) = .error e := by
  unfold SpecBuilder.Build
  rw [SpecBuilder.applyOptions_ok_append pre (o :: post) _ c' hpre]
  simp only [SpecBuilder.applyOptions, hfail]

/-- Witness for C3: a succeeding option, then a failing one, then a
subsequent option that is never reached. -/
theorem C3_fail_fast_witness :
    SpecBuilder.Build (L := Nat) "https://api.example.com"
      ([fun c => .ok { c with header := some [("A", "1")] }] ++
        (fun _ => .error (.optionApplicationFailure "WithHeader" "malformed mapping")) ::
        [fun c => .ok { c with logger := some 7 }]) =
      .error (.optionApplicationFailure "WithHeader" "malformed mapping") :=
  C3_fail_fast "https://api.example.com"
    [fun c => .ok { c with header := some [("A", "1")] }]
    [fun c => .ok { c with logger := some 7 }]
    (fun _ => .error (.optionApplicationFailure "WithHeader" "malformed mapping"))
    { baseURL := "https://api.example.com", header := some [("A", "1")],
      logger := none, baseClient := some () }
    (.optionApplicationFailure "WithHeader" "malformed mapping") rfl rfl

/-- C4 counterexample: `New "" []` does not fail — the source performs
no validation of the required identifier — and instead returns the
ordinary default-initialized target with empty identifier. -/
theorem C4_counterexample :
    FunctionalOptions.New (L := Nat) "" [] =
      { baseURL := "", header := some [], logger := none, baseClient := some () } :=
  rfl

/-- C4 amended: calling the builder with an empty required identifier
does not fail; `New` performs no validation of the identifier, and
`New "" []` returns a usable target whose identifier is the empty
string and whose every optional attribute is at its documented default
(empty header map, logger unset, fresh base client). -/
theorem C4_no_validation {L : Type} :
    (FunctionalOptions.New (L := L) "" []).baseURL = "" ∧
    (FunctionalOptions.New (L := L) "" []).header = some [] ∧
    (FunctionalOptions.New (L := L) "" []).logger = none ∧
    (FunctionalOptions.New (L := L) "" []).baseClient = some () :=
  ⟨rfl, rfl, rfl, rfl⟩

/-- C5: `WithHeader` and `WithLogger` touch disjoint attributes and
commute: both orders build the identical target, equal to the default
target with the header and logger effects applied independently. -/
theorem C5_disjoint_options_commute {L : Type} (b : String) (hb : b ≠ "")
    (h : Option (List (String × String))) (l : Option L) :
    FunctionalOptions.New (L := L) b
      [FunctionalOptions.WithHeader h, FunctionalOptions.WithLogger l] =
      FunctionalOptions.New (L := L) b
        [FunctionalOptions.WithLogger l, FunctionalOptions.WithHeader h] ∧
    FunctionalOptions.New (L := L) b
      [FunctionalOptions.WithHeader h, FunctionalOptions.WithLogger l] =
      { baseURL := b, header := h, logger := l, baseClient := some () } :=
  ⟨rfl, rfl⟩

/-- Witness for C5 at concrete inputs. -/
theorem C5_disjoint_options_commute_witness :
    FunctionalOptions.New (L := Nat) "https://api.example.com"
      [FunctionalOptions.WithHeader (some [("Authorization", "Bearer token")]),
       FunctionalOptions.WithLogger (some 3)] =
      FunctionalOptions.New (L := Nat) "https://api.example.com"
        [FunctionalOptions.WithLogger (some 3),
         FunctionalOptions.WithHeader (some [("Authorization", "Bearer token")])] ∧
    FunctionalOptions.New (L := Nat) "https://api.example.com"
      [FunctionalOptions.WithHeader (some [("Authorization", "Bearer token")]),
       FunctionalOptions.WithLogger (some 3)] =
      { baseURL := "https://api.example.com",
        header := some [("Authorization", "Bearer token")],
        logger := some 3, baseClient := some () } :=
  C5_disjoint_options_commute "https://api.example.com" (by decide)
    (some [("Authorization", "Bearer token")]) (some 3)

/-- C6: every pure-assignment option is idempotent under `New` —
applying it twice builds the same target as applying it once — and the
options produced by `WithHeader` and `WithLogger` are pure assignments,
so in particular doubling either of them changes nothing. -/
theorem C6_idempotent {L : Type} (b : String) (hb : b ≠ "")
    (o : FunctionalOptions.Option' L) (h : Option (List (String × String)))
    (l : Option L) :
    (FunctionalOptions.IsPureAssignment o →
      FunctionalOptions.New (L := L) b [o, o] = FunctionalOptions.New (L := L) b [o]) ∧
    FunctionalOptions.IsPureAssignment (FunctionalOptions.WithHeader (L := L) h) ∧
    FunctionalOptions.IsPureAssignment (FunctionalOptions.WithLogger (L := L) l) ∧
    FunctionalOptions.New (L := L) b
      [FunctionalOptions.WithHeader h, FunctionalOptions.WithHeader h] =
      FunctionalOptions.New (L := L) b [FunctionalOptions.WithHeader h] ∧
    FunctionalOptions.New (L := L) b
      [FunctionalOptions.WithLogger l, FunctionalOptions.WithLogger l] =
      FunctionalOptions.New (L := L) b [FunctionalOptions.WithLogger l] := by
  refine ⟨?_, ?_, ?_, rfl, rfl⟩
  · intro hpure
    rcases hpure with ⟨v, hv⟩ | ⟨v, hv⟩ | ⟨v, hv⟩ | ⟨v, hv⟩ | hv <;>
      simp only [FunctionalOptions.New, List.foldl, hv]
  · exact Or.inl ⟨h, fun c => rfl⟩
  · exact Or.inr (Or.inl ⟨l, fun c => rfl⟩)

/-- Witness for C6 at concrete inputs. -/
theorem C6_idempotent_witness :
    (FunctionalOptions.IsPureAssignment
        (FunctionalOptions.WithHeader (L := Nat) (some [("A", "1")])) →
      FunctionalOptions.New (L := Nat) "https://api.example.com"
        [FunctionalOptions.WithHeader (some [("A", "1")]),
         FunctionalOptions.WithHeader (some [("A", "1")])] =
        FunctionalOptions.New (L := Nat) "https://api.example.com"
          [FunctionalOptions.WithHeader (some [("A", "1")])]) ∧
    FunctionalOptions.IsPureAssignment
      (FunctionalOptions.WithHeader (L := Nat) (some [("A", "1")])) ∧
    FunctionalOptions.IsPureAssignment (FunctionalOptions.WithLogger (L := Nat) (some 5)) ∧
    FunctionalOptions.New (L := Nat) "https://api.example.com"
      [FunctionalOptions.WithHeader (some [("A", "1")]),
       FunctionalOptions.WithHeader (some [("A", "1")])] =
      FunctionalOptions.New (L := Nat) "https://api.example.com"
        [FunctionalOptions.WithHeader (some [("A", "1")])] ∧
    FunctionalOptions.New (L := Nat) "https://api.example.com"
      [FunctionalOptions.WithLogger (some 5), FunctionalOptions.WithLogger (some 5)] =
      FunctionalOptions.New (L := Nat) "https://api.example.com"
        [FunctionalOptions.WithLogger (some 5)] :=
  C6_idempotent "https://api.example.com" (by decide)
    (FunctionalOptions.WithHeader (some [("A", "1")])) (some [("A", "1")]) (some 5)

/-- C7: the builder is deterministic — two invocations of `New` with
equal identifiers and equal ordered option sequences produce attribute-
for-attribute identical targets. -/
theorem C7_deterministic {L : Type} (b b' : String)
    (opts opts' : List (FunctionalOptions.Option' L))
    (hb : b = b') (ho : opts = opts') :
    (FunctionalOptions.New (L := L) b opts).baseURL =
      (FunctionalOptions.New (L := L) b' opts').baseURL ∧
    (FunctionalOptions.New (L := L) b opts).header =
      (FunctionalOptions.New (L := L) b' opts').header ∧
    (FunctionalOptions.New (L := L) b opts).logger =
      (FunctionalOptions.New (L := L) b' opts').logger ∧
    (FunctionalOptions.New (L := L) b opts).baseClient =
      (FunctionalOptions.New (L := L) b' opts').baseClient := by
  subst hb; subst ho
  exact ⟨rfl, rfl, rfl, rfl⟩

/-- Witness for C7 at concrete inputs. -/
theorem C7_deterministic_witness :
    (FunctionalOptions.New (L := Nat) "https://api.example.com"
        [FunctionalOptions.WithLogger (some 2)]).baseURL =
      (FunctionalOptions.New (L := Nat) "https://api.example.com"
        [FunctionalOptions.WithLogger (some 2)]).baseURL ∧
    (FunctionalOptions.New (L := Nat) "https://api.example.com"
        [FunctionalOptions.WithLogger (some 2)]).header =
      (FunctionalOptions.New (L := Nat) "https://api.example.com"
        [FunctionalOptions.WithLogger (some 2)]).header ∧
    (FunctionalOptions.New (L := Nat) "https://api.example.com"
        [FunctionalOptions.WithLogger (some 2)]).logger =
      (FunctionalOptions.New (L := Nat) "https://api.example.com"
        [FunctionalOptions.WithLogger (some 2)]).logger ∧
    (FunctionalOptions.New (L := Nat) "https://api.example.com"
        [FunctionalOptions.WithLogger (some 2)]).baseClient =
      (FunctionalOptions.New (L := Nat) "https://api.example.com"
        [FunctionalOptions.WithLogger (some 2)]).baseClient :=
  C7_deterministic "https://api.example.com" "https://api.example.com"
    [FunctionalOptions.WithLogger (some 2)] [FunctionalOptions.WithLogger (some 2)]
    rfl rfl

/-- C8: frame property of the option factories — on every target state,
`WithHeader h` assigns `h` to the header and leaves the identifier,
logger and base client unchanged, and `WithLogger l` assigns `l` to the
logger and leaves the identifier, header and base client unchanged. -/
theorem C8_frame {L : Type} (c : Client L) (h : Option (List (String × String)))
    (l : Option L) :
    (FunctionalOptions.WithHeader (L := L) h c).header = h ∧
    (FunctionalOptions.WithHeader (L := L) h c).baseURL = c.baseURL ∧
    (FunctionalOptions.WithHeader (L := L) h c).logger = c.logger ∧
    (FunctionalOptions.WithHeader (L := L) h c).baseClient = c.baseClient ∧
    (FunctionalOptions.WithLogger (L := L) l c).logger = l ∧
    (FunctionalOptions.WithLogger (L := L) l c).baseURL = c.baseURL ∧
    (FunctionalOptions.WithLogger (L := L) l c).header = c.header ∧
    (FunctionalOptions.WithLogger (L := L) l c).baseClient = c.baseClient :=
  ⟨rfl, rfl, rfl, rfl, rfl, rfl, rfl, rfl⟩

/-- C9: the functional-options constructor is total and rejects no
input: for every identifier (the empty string included), every header
map (the nil map included) and every logger (nil included), `New`
returns a client whose identifier is the given string and whose base
client is the freshly set non-nil default. -/
theorem C9_total {L : Type} (b : String) (h : Option (List (String × String)))
    (l : Option L) :
    (FunctionalOptions.New (L := L) b
      [FunctionalOptions.WithHeader h, FunctionalOptions.WithLogger l]).baseURL = b ∧
    (FunctionalOptions.New (L := L) b
      [FunctionalOptions.WithHeader h, FunctionalOptions.WithLogger l]).baseClient =
      some () ∧
    (FunctionalOptions.New (L := L) b []).baseURL = b ∧
    (FunctionalOptions.New (L := L) b []).baseClient = some () :=
  ⟨rfl, rfl, rfl, rfl⟩

/-- C10: the construction variants are equivalent — the traditional
constructor, the config-struct constructor and the functional-options
constructor with `WithHeader` and `WithLogger` build identical clients
for every identifier, header map and logger. -/
theorem C10_variants_equivalent {L : Type} (b : String)
    (h : Option (List (String × String))) (l : Option L) :
    Traditional.New (L := L) b h l =
      ConfigStruct.NewWithConfig { BaseURL := b, Header := h, Logger := l } ∧
    Traditional.New (L := L) b h l =
      FunctionalOptions.New (L := L) b
        [FunctionalOptions.WithHeader h, FunctionalOptions.WithLogger l] :=
  ⟨rfl, rfl⟩
